import Mathlib

/-!
Shallow embedding of the balance-debit transactional core of the BB-M7011E
campus-card payment platform, translated from `src/OldCode/main.py` (the
legacy monolith's purchase, credit and archive endpoints), the SQLite schema
in `src/OldCode/create_db.py`, and the status-toggle caller in
`src/user_service/app/routes.py`.

Modelling conventions:
* SQL tables are lists of rows; `card_id` / `id` / `key` are PRIMARY KEYs in
  the schema, so where a theorem needs row uniqueness it takes it as a
  hypothesis.
* Timestamps (`datetime` strings in the code) are `Nat` seconds; the string
  comparisons in the SQL are order-isomorphic to numeric comparison.
* Balances and prices are `Int`: Python integers are arbitrary precision, so
  no modular reduction appears anywhere.
* `confirm_user_from_xpel_db` queries an external identity database and its
  body is an unimplemented stub; per §6 of the spec it is an external
  collaborator, so it is modelled as a boolean oracle argument `xpelOk`.
* `PRAGMA foreign_keys = ON` is set on every connection, and
  `transaction_history.item_id` REFERENCES `items(id)`; an INSERT of a record
  whose item id has no row in `items` raises, is caught by the generic
  handler, rolls back, and surfaces as HTTP 500 (`internalError` below).
* With an empty line-item list the code builds `SELECT ... WHERE id IN ()`,
  which is an SQLite syntax error raised outside the try block: HTTP 500
  with no mutation; modelled as `internalError`.
-/

namespace BBLedger

/-- A row of the `users` table (`create_db.py`): card id, name, balance in
öre, active flag stored as 0/1. -/
structure User where
  card_id : String
  name : String
  balance : Int
  active : Bool
deriving Repr, DecidableEq

/-- A row of the `items` table (`create_db.py`). The `barcode_id` column is
irrelevant to every operation modelled here and is omitted. -/
structure Item where
  id : String
  name : String
  price : Int
  active : Bool
deriving Repr, DecidableEq

/-- A row of `transaction_history` (`create_db.py` lines 44-51): autoincrement
id, user card id, item id, timestamp.  Note: the schema stores NO amount or
price column. -/
structure TransRecord where
  id : Nat
  user_card_id : String
  item_id : String
  time : Nat
deriving Repr, DecidableEq

/-- The `result_summary` dict persisted as `result_json` in the idempotency
table and returned on success: `{"total": total, "timestamp": now}`. -/
structure Summary where
  total : Int
  timestamp : Nat
deriving Repr, DecidableEq

/-- A row of the `idempotency` table created on demand in `purchase_items`:
key (PRIMARY KEY), result payload, creation timestamp. -/
structure IdemEntry where
  key : String
  result : Summary
  created_at : Nat
deriving Repr, DecidableEq

/-- The SQLite database state: the four tables plus the autoincrement counter
of `transaction_history`. -/
structure DB where
  users : List User
  items : List Item
  transaction_history : List TransRecord
  idempotency : List IdemEntry
  next_trans_id : Nat
deriving Repr, DecidableEq

/-- `LineItem` request model from `main.py` (quantity defaults to 1 and is
not validated, so it stays a signed integer). -/
structure LineItem where
  item_id : String
  quantity : Int
deriving Repr, DecidableEq

/-- `PurchaseRequest` request model from `main.py`; `mode` is a free string
defaulting to `"all_or_nothing"` (anything else behaves as partial). -/
structure PurchaseRequest where
  card_id : String
  items : List LineItem
  mode : String
deriving Repr, DecidableEq

/-- `SELECT * FROM users WHERE card_id = ?` (first row). -/
def findUser (users : List User) (c : String) : Option User :=
  users.find? (fun u => u.card_id = c)

/-- Lookup in the `items_map` built by `SELECT id, price, active FROM items
WHERE id IN (...)`. -/
def findItem (items : List Item) (i : String) : Option Item :=
  items.find? (fun it => it.id = i)

/-- Negation of the line-failure test `li.item_id not in items_map or
items_map[li.item_id]["active"] == 0` in `purchase_items`. -/
def survives (items : List Item) (li : LineItem) : Bool :=
  match findItem items li.item_id with
  | none => false
  | some it => it.active

/-- The catalog price used for a surviving line (`items_map[li.item_id]["price"]`);
0 as a don't-care value for lines that do not survive. -/
def linePrice (items : List Item) (li : LineItem) : Int :=
  match findItem items li.item_id with
  | none => 0
  | some it => it.price

/-- The pricing loop of `purchase_items` (lines 157-167): accumulate
`price * quantity` over lines; a failing line raises HTTP 400 with the item id
under `all_or_nothing` and is skipped otherwise. -/
def computeTotal (items : List Item) (mode : String) : List LineItem → Except String Int
  | [] => Except.ok 0
  | li :: rest =>
    if survives items li then
      match computeTotal items mode rest with
      | Except.ok t => Except.ok (linePrice items li * li.quantity + t)
      | Except.error e => Except.error e
    else if mode = "all_or_nothing" then Except.error li.item_id
    else computeTotal items mode rest

/-- Effect of `UPDATE users SET balance = balance - ? WHERE card_id = ? AND
balance >= ?` on one row. -/
def debitRow (c : String) (total : Int) (u : User) : User :=
  if u.card_id = c ∧ total ≤ u.balance then
    { u with balance := u.balance - total }
  else u

/-- `cur.rowcount` of the conditional debit: the number of rows matching
`card_id = ? AND balance >= ?`. -/
def debitMatches (users : List User) (c : String) (total : Int) : Nat :=
  (users.filter (fun u => decide (u.card_id = c ∧ total ≤ u.balance))).length

/-- The records inserted for one line: `for _ in range(li.quantity)` inserts,
so `li.quantity.toNat` rows, with consecutive autoincrement ids. -/
def recordsFor (startId : Nat) (c : String) (now : Nat) (li : LineItem) : List TransRecord :=
  (List.range li.quantity.toNat).map (fun j => ⟨startId + j, c, li.item_id, now⟩)

/-- The insert loop of `purchase_items` (lines 181-186): one record per unit of
EVERY requested line - the loop runs over `req.items`, not over the surviving
lines. -/
def appendRecords (startId : Nat) (c : String) (now : Nat) : List LineItem → List TransRecord
  | [] => []
  | li :: rest =>
      recordsFor startId c now li ++ appendRecords (startId + li.quantity.toNat) c now rest

/-- The insert loop violates the `item_id` foreign key iff some line with at
least one unit names an item id absent from `items`; the violation aborts and
rolls back the whole transaction. -/
def fkViolation (items : List Item) (lines : List LineItem) : Bool :=
  lines.any (fun li => decide (1 ≤ li.quantity) && (findItem items li.item_id).isNone)

/-- Outcomes of `POST /purchases` as raised/returned by `purchase_items`. -/
inductive PurchaseResult where
  | replay (stored : Summary)
  | xpelRejected
  | invalidLine (item_id : String)
  | insufficientFunds
  | internalError
  | success (total : Int) (summary : Summary)
deriving Repr, DecidableEq

/-- HTTP status of each outcome, as raised in `purchase_items` (the endpoint
itself is declared with `status_code=201`). -/
def purchaseHttpStatus : PurchaseResult → Nat
  | .replay _ => 201
  | .xpelRejected => 403
  | .invalidLine _ => 400
  | .insufficientFunds => 402
  | .internalError => 500
  | .success _ _ => 201

/-- `purchase_items` after the idempotency-replay check: external XPEL check,
item select + pricing, conditional debit, record inserts, optional idempotency
insert, all inside one BEGIN...COMMIT (any failure rolls everything back). -/
def purchaseCore (db : DB) (xpelOk : Bool) (req : PurchaseRequest)
    (idemKey : Option String) (now : Nat) : PurchaseResult × DB :=
  if xpelOk = false then (.xpelRejected, db)
  else if req.items.isEmpty then (.internalError, db)
  else
    match computeTotal db.items req.mode req.items with
    | .error iid => (.invalidLine iid, db)
    | .ok total =>
      if debitMatches db.users req.card_id total = 0 then (.insufficientFunds, db)
      else if fkViolation db.items req.items then (.internalError, db)
      else
        let recs := appendRecords db.next_trans_id req.card_id now req.items
        let summary : Summary := ⟨total, now⟩
        (.success total summary,
          { users := db.users.map (debitRow req.card_id total)
            items := db.items
            transaction_history := db.transaction_history ++ recs
            idempotency := db.idempotency ++
              (match idemKey with | some k => [⟨k, summary, now⟩] | none => [])
            next_trans_id := db.next_trans_id + recs.length })

/-- `POST /purchases` (`purchase_items`, lines 114-204): when an idempotency
key header is present, `SELECT result_json FROM idempotency WHERE key = ?` and
replay on a hit (note: the lookup has no age condition); otherwise run the
purchase. -/
def purchase (db : DB) (xpelOk : Bool) (req : PurchaseRequest)
    (idemKey : Option String) (now : Nat) : PurchaseResult × DB :=
  match idemKey with
  | some k =>
    match db.idempotency.find? (fun e => e.key = k) with
    | some e => (.replay e.result, db)
    | none => purchaseCore db xpelOk req (some k) now
  | none => purchaseCore db xpelOk req none now

/-- Outcomes of `PATCH /user/{card_id}/balance` (`add_balance_to_user`). -/
inductive CreditResult where
  | xpelRejected
  | noop
  | userNotFound
  | ok
deriving Repr, DecidableEq

/-- `add_balance_to_user` (`main.py` lines 327-354): external XPEL check, a
no-op for amount 0, then `UPDATE users SET balance = balance + ? WHERE
card_id = ?` - an unconditional signed addition, committed iff some row
matched. -/
def add_balance_to_user (db : DB) (xpelOk : Bool) (c : String) (amount : Int) :
    CreditResult × DB :=
  if xpelOk = false then (.xpelRejected, db)
  else if amount = 0 then (.noop, db)
  else if (db.users.filter (fun u => decide (u.card_id = c))).length = 0 then
    (.userNotFound, db)
  else
    (.ok, { db with users := db.users.map (fun u =>
        if u.card_id = c then { u with balance := u.balance + amount } else u) })

/-- The archive cutoff `datetime('now', '-7 days')` in seconds. -/
def archiveCutoff (now : Nat) : Nat := now - 7 * 86400

/-- The idempotency purge cutoff `datetime('now', '-24 hours')` in seconds. -/
def idemExpiryCutoff (now : Nat) : Nat := now - 24 * 3600

/-- A CSV row written by `archive_old_transactions`: the SELECT at lines
229-239 LEFT JOINs `users` and `items`, so `user_name`, `item_name` and
`price` come from the LIVE tables at archive time (NULL when the join
misses). -/
structure ExportRow where
  id : Nat
  user_card_id : String
  user_name : Option String
  item_id : String
  item_name : Option String
  price : Option Int
  time : Nat
deriving Repr, DecidableEq

/-- One exported CSV row for a transaction record, from the LEFT JOINs. -/
def exportRow (db : DB) (r : TransRecord) : ExportRow :=
  { id := r.id
    user_card_id := r.user_card_id
    user_name := (findUser db.users r.user_card_id).map User.name
    item_id := r.item_id
    item_name := (findItem db.items r.item_id).map Item.name
    price := (findItem db.items r.item_id).map Item.price
    time := r.time }

/-- The JSON counters returned by `POST /admin/archive`, plus the exported
CSV content (the archive file path and wall-clock fields are I/O detail). -/
structure ArchiveResult where
  transactions_archived : Nat
  expired_keys_deleted : Nat
  exported : List ExportRow
deriving Repr, DecidableEq

/-- `archive_old_transactions` (`main.py` lines 207-322), inside one
EXCLUSIVE transaction: select records with `time < cutoff`, write them to the
CSV, `DELETE FROM transaction_history WHERE time < cutoff`, then
`DELETE FROM idempotency WHERE datetime('now','-24 hours') >= created_at`,
and return both counts. -/
def archive_old_transactions (db : DB) (now : Nat) : ArchiveResult × DB :=
  let cutoff := archiveCutoff now
  let old := db.transaction_history.filter (fun r => decide (r.time < cutoff))
  let kept := db.transaction_history.filter (fun r => decide (¬ r.time < cutoff))
  let keptIdem := db.idempotency.filter
    (fun e => decide (¬ e.created_at ≤ idemExpiryCutoff now))
  let deleted := db.idempotency.filter
    (fun e => decide (e.created_at ≤ idemExpiryCutoff now))
  ({ transactions_archived := old.length
     expired_keys_deleted := deleted.length
     exported := old.map (exportRow db) },
   { db with transaction_history := kept, idempotency := keptIdem })

/-- Outcomes of the `user_status` stored procedure as distinguished by the
error-message mapping in `set_user_status` (`user_service/app/routes.py`
lines 140-175). -/
inductive SetStatusResult where
  | ok (newActive : Bool)
  | userNotFound
  | alreadyInState (b : Bool)
deriving Repr, DecidableEq

/-- Modelled from the spec: the `user_status` stored procedure called by
`set_user_status` in `user_service/app/routes.py` lives in the hosted
database and its SQL is not among the repository sources; per the spec
(§4.2) and the caller's error mapping, a missing account fails with
"User not found", a request for the state the account already has fails with
"User status is already active=..." (AlreadyInState) and mutates nothing,
and otherwise the active flag is set to the requested value. -/
def user_status (db : DB) (uid : String) (b : Bool) : SetStatusResult × DB :=
  match findUser db.users uid with
  | none => (.userNotFound, db)
  | some u =>
    if u.active = b then (.alreadyInState b, db)
    else
      (.ok b, { db with users := db.users.map (fun v =>
          if v.card_id = uid then { v with active := b } else v) })

/-- HTTP status chosen by `set_user_status` for each RPC outcome
(`user_service/app/routes.py` lines 161-169): AlreadyInState is surfaced as
a distinguishable 400 client error, not as success. -/
def setStatusHttp : SetStatusResult → Nat
  | .ok _ => 200
  | .userNotFound => 404
  | .alreadyInState _ => 400

/-! ### Helper lemmas about the pricing loop -/

/-- Whenever the pricing loop completes, the total is the exact integer sum of
`unit_price * quantity` over the surviving lines, in ℤ with no reduction. -/
theorem computeTotal_ok_sum (items : List Item) (mode : String) :
    ∀ (lines : List LineItem) (t : Int),
      computeTotal items mode lines = Except.ok t →
      t = ((lines.filter (survives items)).map
            (fun li => linePrice items li * li.quantity)).sum
  | [], t, h => by
      simpa [computeTotal] using h.symm
  | li :: rest, t, h => by
      by_cases hs : survives items li
      · simp only [computeTotal, hs, if_true] at h
        cases hrest : computeTotal items mode rest with
        | error e => rw [hrest] at h; cases h
        | ok t2 =>
            rw [hrest] at h
            cases h
            have := computeTotal_ok_sum items mode rest t2 hrest
            simp [List.filter_cons, hs, this]
      · simp only [computeTotal, hs, if_false, Bool.false_eq_true] at h
        by_cases hm : mode = "all_or_nothing"
        · rw [if_pos hm] at h; cases h
        · rw [if_neg hm] at h
          have := computeTotal_ok_sum items mode rest t h
          simp [List.filter_cons, hs, this]

/-- When the mode is not `"all_or_nothing"` the pricing loop never raises:
every failing line is skipped and the run returns the survivors' sum. -/
theorem computeTotal_not_aon (items : List Item) (mode : String)
    (hm : mode ≠ "all_or_nothing") :
    ∀ lines : List LineItem,
      computeTotal items mode lines
        = Except.ok (((lines.filter (survives items)).map
            (fun li => linePrice items li * li.quantity)).sum)
  | [] => by simp [computeTotal]
  | li :: rest => by
      by_cases hs : survives items li
      · simp [computeTotal, hs, computeTotal_not_aon items mode hm rest,
          List.filter_cons]
      · simp [computeTotal, hs, hm, computeTotal_not_aon items mode hm rest,
          List.filter_cons]

/-- When every line survives, the pricing loop returns the full sum in any
mode. -/
theorem computeTotal_all_survive (items : List Item) (mode : String) :
    ∀ lines : List LineItem,
      (∀ li ∈ lines, survives items li = true) →
      computeTotal items mode lines
        = Except.ok ((lines.map (fun li => linePrice items li * li.quantity)).sum)
  | [], _ => by simp [computeTotal]
  | li :: rest, h => by
      have hs : survives items li = true := h li (by simp)
      have hrest := computeTotal_all_survive items mode rest
        (fun l hl => h l (by simp [hl]))
      simp [computeTotal, hs, hrest]

/-- Under `"all_or_nothing"`, a failing line somewhere in the list makes the
pricing loop raise HTTP 400 carrying some item id. -/
theorem computeTotal_aon_error (items : List Item) :
    ∀ lines : List LineItem,
      lines.all (survives items) = false →
      ∃ iid, computeTotal items "all_or_nothing" lines = Except.error iid
  | [], h => by simp at h
  | li :: rest, h => by
      by_cases hs : survives items li
      · have hrest : rest.all (survives items) = false := by
          simpa [List.all_cons, hs] using h
        obtain ⟨iid, hiid⟩ := computeTotal_aon_error items rest hrest
        exact ⟨iid, by simp [computeTotal, hs, hiid]⟩
      · exact ⟨li.item_id, by simp [computeTotal, hs]⟩

/-! ### Helper lemmas about the conditional debit and the insert loop -/

/-- The conditional update never changes a row's primary key. -/
theorem debitRow_card_id (c : String) (t : Int) (u : User) :
    (debitRow c t u).card_id = u.card_id := by
  unfold debitRow; split <;> rfl

/-- A row the conditional update touches ends at `balance - total`; any other
row is untouched. -/
theorem debitRow_eq (c : String) (t : Int) (u : User) (hc : u.card_id = c)
    (hb : t ≤ u.balance) :
    debitRow c t u = { u with balance := u.balance - t } := by
  unfold debitRow
  rw [if_pos ⟨hc, hb⟩]

/-- The conditional debit keeps every balance non-negative, whatever the sign
of the total: it only fires when `total ≤ balance`. -/
theorem debitRow_nonneg (c : String) (t : Int) (u : User)
    (h : 0 ≤ u.balance) : 0 ≤ (debitRow c t u).balance := by
  unfold debitRow
  split
  · next h2 => simpa using h2.2
  · exact h

/-- If `findUser` returns a row with sufficient balance, the conditional
update matches at least one row. -/
theorem debitMatches_pos (users : List User) (c : String) (t : Int) (u : User)
    (hu : findUser users c = some u) (hb : t ≤ u.balance) :
    debitMatches users c t ≠ 0 := by
  have hmem : u ∈ users := List.mem_of_find?_eq_some hu
  have hc : u.card_id = c := by
    have := List.find?_some hu
    simpa using this
  have : u ∈ users.filter (fun v => decide (v.card_id = c ∧ t ≤ v.balance)) := by
    simp [List.mem_filter, hmem, hc, hb]
  unfold debitMatches
  intro hlen
  rw [List.length_eq_zero] at hlen
  rw [hlen] at this
  simp at this

/-- If every row with the request's card id is underfunded (in particular if
no such row exists), the conditional update matches zero rows. -/
theorem debitMatches_zero (users : List User) (c : String) (t : Int)
    (h : ∀ u ∈ users, u.card_id = c → u.balance < t) :
    debitMatches users c t = 0 := by
  unfold debitMatches
  rw [List.length_eq_zero, List.filter_eq_nil_iff]
  intro u hu
  simp only [decide_eq_true_eq, not_and]
  intro hc
  exact not_le.mpr (h u hu hc)

/-- The insert loop writes exactly `Σ max(quantity, 0)` records: one per unit
of every requested line. -/
theorem appendRecords_length (c : String) (now : Nat) :
    ∀ (lines : List LineItem) (s : Nat),
      (appendRecords s c now lines).length
        = (lines.map (fun li => li.quantity.toNat)).sum
  | [], _ => rfl
  | li :: rest, s => by
      simp [appendRecords, recordsFor, appendRecords_length c now rest]

/-- Every record the insert loop writes carries the request's card id, the
line's item id, and the shared timestamp. -/
theorem appendRecords_mem (c : String) (now : Nat) :
    ∀ (lines : List LineItem) (s : Nat) (r : TransRecord),
      r ∈ appendRecords s c now lines →
      r.user_card_id = c ∧ r.time = now ∧ ∃ li ∈ lines, r.item_id = li.item_id
  | [], _, r, h => by simp [appendRecords] at h
  | li :: rest, s, r, h => by
      simp only [appendRecords, List.mem_append] at h
      rcases h with h | h
      · simp only [recordsFor, List.mem_map, List.mem_range] at h
        obtain ⟨j, _, rfl⟩ := h
        exact ⟨rfl, rfl, li, by simp⟩
      · obtain ⟨h1, h2, li2, hli2, h3⟩ := appendRecords_mem c now rest _ r h
        exact ⟨h1, h2, li2, by simp [hli2], h3⟩

/-- When every line survives (its item is present and active), the insert
loop cannot violate the `item_id` foreign key. -/
theorem fkViolation_of_survives (items : List Item) (lines : List LineItem)
    (hs : ∀ li ∈ lines, survives items li = true) :
    fkViolation items lines = false := by
  unfold fkViolation
  rw [List.any_eq_false]
  intro li hli
  have := hs li hli
  unfold survives at this
  cases hfi : findItem items li.item_id with
  | none => rw [hfi] at this; cases this
  | some it => simp [hfi]

/-! ### Branch characterizations of `purchase_items` -/

/-- With no idempotency key the replay check is skipped. -/
theorem purchase_none (db : DB) (x : Bool) (req : PurchaseRequest) (now : Nat) :
    purchase db x req none now = purchaseCore db x req none now := rfl

/-- A keyed request whose key has no stored entry runs the purchase. -/
theorem purchase_key_miss (db : DB) (x : Bool) (req : PurchaseRequest)
    (k : String) (now : Nat)
    (hk : db.idempotency.find? (fun e => e.key = k) = none) :
    purchase db x req (some k) now = purchaseCore db x req (some k) now := by
  have h0 : purchase db x req (some k) now =
      (match db.idempotency.find? (fun e => e.key = k) with
       | some e => (PurchaseResult.replay e.result, db)
       | none => purchaseCore db x req (some k) now) := rfl
  rw [h0, hk]

/-- A keyed request whose key has a stored entry - of any age - returns the
stored payload and mutates nothing. -/
theorem purchase_key_hit (db : DB) (x : Bool) (req : PurchaseRequest)
    (k : String) (now : Nat) (e : IdemEntry)
    (hk : db.idempotency.find? (fun e2 => e2.key = k) = some e) :
    purchase db x req (some k) now = (.replay e.result, db) := by
  have h0 : purchase db x req (some k) now =
      (match db.idempotency.find? (fun e2 => e2.key = k) with
       | some e2 => (PurchaseResult.replay e2.result, db)
       | none => purchaseCore db x req (some k) now) := rfl
  rw [h0, hk]

/-- The fully successful run: pricing completed, the conditional debit
matched, no foreign-key violation.  The commit debits via the conditional
update, appends the insert loop's records, and (when a key is present) stores
the idempotency entry - all in one atomic unit. -/
theorem purchaseCore_success_spec (db : DB) (req : PurchaseRequest)
    (k : Option String) (now : Nat) (total : Int)
    (hne : req.items ≠ [])
    (hprice : computeTotal db.items req.mode req.items = Except.ok total)
    (hmatch : debitMatches db.users req.card_id total ≠ 0)
    (hfk : fkViolation db.items req.items = false) :
    purchaseCore db true req k now =
      (.success total ⟨total, now⟩,
        { users := db.users.map (debitRow req.card_id total)
          items := db.items
          transaction_history := db.transaction_history
            ++ appendRecords db.next_trans_id req.card_id now req.items
          idempotency := db.idempotency
            ++ (match k with | some kk => [⟨kk, ⟨total, now⟩, now⟩] | none => [])
          next_trans_id := db.next_trans_id
            + (appendRecords db.next_trans_id req.card_id now req.items).length }) := by
  unfold purchaseCore
  rw [hprice, List.isEmpty_eq_false.mpr hne]
  simp [hmatch, hfk]

/-- The insufficient-funds run: the conditional update matched zero rows, the
transaction rolls back, nothing is mutated. -/
theorem purchaseCore_insufficient (db : DB) (req : PurchaseRequest)
    (k : Option String) (now : Nat) (total : Int)
    (hne : req.items ≠ [])
    (hprice : computeTotal db.items req.mode req.items = Except.ok total)
    (hmatch : debitMatches db.users req.card_id total = 0) :
    purchaseCore db true req k now = (.insufficientFunds, db) := by
  unfold purchaseCore
  rw [hprice, List.isEmpty_eq_false.mpr hne]
  simp [hmatch]

/-- The aborted run: the pricing step raised, before BEGIN, so nothing is
mutated. -/
theorem purchaseCore_invalidLine (db : DB) (req : PurchaseRequest)
    (k : Option String) (now : Nat) (iid : String)
    (hne : req.items ≠ [])
    (hprice : computeTotal db.items req.mode req.items = Except.error iid) :
    purchaseCore db true req k now = (.invalidLine iid, db) := by
  unfold purchaseCore
  rw [hprice, List.isEmpty_eq_false.mpr hne]
  simp

/-- Any run of the core either reports success or leaves the database
exactly as it was (the single BEGIN...COMMIT unit is all-or-nothing). -/
theorem purchaseCore_shape (db : DB) (x : Bool) (req : PurchaseRequest)
    (k : Option String) (now : Nat) :
    (∃ t s, (purchaseCore db x req k now).1 = .success t s)
    ∨ (purchaseCore db x req k now).2 = db := by
  unfold purchaseCore
  by_cases hx : x = false
  · simp [hx]
  · rw [if_neg hx]
    by_cases he : req.items.isEmpty
    · simp [he]
    · rw [if_neg he]
      cases hp : computeTotal db.items req.mode req.items with
      | error iid => simp
      | ok total =>
        by_cases hm : debitMatches db.users req.card_id total = 0
        · simp [hm]
        · by_cases hf : fkViolation db.items req.items
          · simp [hm, hf]
          · exact Or.inl ⟨total, ⟨total, now⟩, by simp [hm, hf]⟩

/-- Inversion of the successful run: the reported summary is
`{total, timestamp := now}`, and the only idempotency-table change is the
appended entry for the request's own key, carrying that summary. -/
theorem purchaseCore_success_inv (db : DB) (x : Bool) (req : PurchaseRequest)
    (k : Option String) (now : Nat) (t : Int) (s : Summary)
    (h : (purchaseCore db x req k now).1 = .success t s) :
    s = ⟨t, now⟩ ∧
    (purchaseCore db x req k now).2.idempotency
      = db.idempotency ++ Option.elim k [] (fun kk => [⟨kk, ⟨t, now⟩, now⟩]) := by
  unfold purchaseCore at h ⊢
  by_cases hx : x = false
  · rw [if_pos hx] at h; simp at h
  · rw [if_neg hx] at h ⊢
    by_cases he : req.items.isEmpty
    · rw [if_pos he] at h; simp at h
    · rw [if_neg he] at h ⊢
      cases hp : computeTotal db.items req.mode req.items with
      | error iid => rw [hp] at h; simp at h
      | ok total =>
        rw [hp] at h
        by_cases hm : debitMatches db.users req.card_id total = 0
        · simp [hm] at h
        · by_cases hf : fkViolation db.items req.items
          · simp [hm, hf] at h
          · simp [hm, hf] at h
            obtain ⟨rfl, rfl⟩ := h
            simp [hm, hf]
            cases k <;> simp

/-- The users table after any run of the core is either untouched or the
image of the single conditional-debit UPDATE. -/
theorem purchaseCore_users_shape (db : DB) (x : Bool) (req : PurchaseRequest)
    (k : Option String) (now : Nat) :
    (purchaseCore db x req k now).2.users = db.users
    ∨ ∃ total, (purchaseCore db x req k now).2.users
        = db.users.map (debitRow req.card_id total) := by
  unfold purchaseCore
  by_cases hx : x = false
  · simp [hx]
  · rw [if_neg hx]
    by_cases he : req.items.isEmpty
    · simp [he]
    · rw [if_neg he]
      cases hp : computeTotal db.items req.mode req.items with
      | error iid => simp
      | ok total =>
        by_cases hm : debitMatches db.users req.card_id total = 0
        · simp [hm]
        · by_cases hf : fkViolation db.items req.items
          · simp [hm, hf]
          · exact Or.inr ⟨total, by simp [hm, hf]⟩

/-- The core never reports an idempotent replay: that branch lives before it.
-/
theorem purchaseCore_ne_replay (db : DB) (x : Bool) (req : PurchaseRequest)
    (k : Option String) (now : Nat) (s : Summary) :
    (purchaseCore db x req k now).1 ≠ .replay s := by
  unfold purchaseCore
  by_cases hx : x = false
  · simp [hx]
  · rw [if_neg hx]
    by_cases he : req.items.isEmpty
    · simp [he]
    · rw [if_neg he]
      cases hp : computeTotal db.items req.mode req.items with
      | error iid => simp
      | ok total =>
        by_cases hm : debitMatches db.users req.card_id total = 0
        · simp [hm]
        · by_cases hf : fkViolation db.items req.items
          · simp [hm, hf]
          · simp [hm, hf]

/-- A successful run's reported total is exactly what the pricing loop
returned. -/
theorem purchaseCore_success_total (db : DB) (x : Bool) (req : PurchaseRequest)
    (k : Option String) (now : Nat) (t : Int) (s : Summary)
    (h : (purchaseCore db x req k now).1 = .success t s) :
    computeTotal db.items req.mode req.items = Except.ok t := by
  unfold purchaseCore at h
  by_cases hx : x = false
  · rw [if_pos hx] at h; simp at h
  · rw [if_neg hx] at h
    by_cases he : req.items.isEmpty
    · rw [if_pos he] at h; simp at h
    · rw [if_neg he] at h
      cases hp : computeTotal db.items req.mode req.items with
      | error iid => rw [hp] at h; simp at h
      | ok total =>
        rw [hp] at h
        by_cases hm : debitMatches db.users req.card_id total = 0
        · simp [hm] at h
        · by_cases hf : fkViolation db.items req.items
          · simp [hm, hf] at h
          · simp [hm, hf] at h
            rw [h.1]

/-- A successful endpoint response always comes from the core, never from the
replay branch. -/
theorem purchase_success_core (db : DB) (x : Bool) (req : PurchaseRequest)
    (k : Option String) (now : Nat) (t : Int) (s : Summary)
    (h : (purchase db x req k now).1 = .success t s) :
    (purchaseCore db x req k now).1 = .success t s := by
  cases k with
  | none => exact h
  | some kk =>
    cases hk : db.idempotency.find? (fun e => e.key = kk) with
    | none => rw [purchase_key_miss db x req kk now hk] at h; exact h
    | some e => rw [purchase_key_hit db x req kk now e hk] at h; cases h

/-- The conditional-debit UPDATE, applied to the whole table, leaves the
first row matching the card id at `balance - total` when that row had
sufficient funds. -/
theorem findUser_debit_map (users : List User) (c : String) (total : Int)
    (u : User) (hu : findUser users c = some u) (hb : total ≤ u.balance) :
    findUser (users.map (debitRow c total)) c
      = some { u with balance := u.balance - total } := by
  unfold findUser at hu ⊢
  rw [List.find?_map]
  have hpred : ((fun v => decide (v.card_id = c)) ∘ debitRow c total)
      = (fun v => decide (v.card_id = c)) := by
    funext v
    simp [Function.comp, debitRow_card_id]
  rw [hpred, hu]
  have hc : u.card_id = c := by simpa using List.find?_some hu
  simp [debitRow_eq c total u hc hb]

/-- The users table after a status update is either untouched or re-mapped
with only the active flag changed; balances are never written. -/
theorem user_status_users_shape (db : DB) (uid : String) (b : Bool) :
    (user_status db uid b).2.users = db.users
    ∨ (user_status db uid b).2.users
        = db.users.map (fun v =>
            if v.card_id = uid then { v with active := b } else v) := by
  unfold user_status
  cases hfu : findUser db.users uid with
  | none => simp
  | some u =>
    by_cases hb : u.active = b
    · simp [hb]
    · simp [hb]

/-- The LEFT-JOINed price of a record equals the pricing helper's value for
a line naming the same item (0 standing for SQL NULL). -/
theorem exportRow_price_getD (db2 : DB) (r : TransRecord) :
    ((exportRow db2 r).price).getD 0
      = linePrice db2.items ⟨r.item_id, 1⟩ := by
  unfold exportRow linePrice
  cases findItem db2.items r.item_id <;> simp

/-- Summing the live-catalog prices over the insert loop's records gives the
same `price * quantity` sum the pricing loop computes, line by line. -/
theorem exported_price_sum (db2 : DB) (c : String) (now : Nat) :
    ∀ (lines : List LineItem) (s : Nat),
      (∀ li ∈ lines, 0 ≤ li.quantity) →
      ((appendRecords s c now lines).map
          (fun r => ((exportRow db2 r).price).getD 0)).sum
        = (lines.map (fun li => linePrice db2.items li * li.quantity)).sum
  | [], _, _ => rfl
  | li :: rest, s, h => by
      have hq : 0 ≤ li.quantity := h li (by simp)
      have ih := exported_price_sum db2 c now rest (s + li.quantity.toNat)
        (fun l hl => h l (by simp [hl]))
      simp only [appendRecords, List.map_append, List.sum_append, ih,
        List.map_cons, List.sum_cons]
      congr 1
      unfold recordsFor
      rw [List.map_map]
      have hconst : ((fun r => ((exportRow db2 r).price).getD 0)
            ∘ fun j => (⟨s + j, c, li.item_id, now⟩ : TransRecord))
          = fun _ => linePrice db2.items li := by
        funext j
        have := exportRow_price_getD db2 ⟨s + j, c, li.item_id, now⟩
        simpa [linePrice] using this
      rw [hconst, List.map_const']
      simp [mul_comm, Int.toNat_of_nonneg hq]

/-! ### Concrete fixtures mirroring the spec's scenarios -/

/-- Account `C1` with balance 500 (Scenario A). -/
def aliceRow : User := ⟨"C1", "alice", 500, true⟩

/-- Active catalog item priced 100 (the sample `apple`). -/
def appleRow : Item := ⟨"A", "apple", 100, true⟩

/-- Inactive catalog item priced 50 (Scenario C's skipped line). -/
def bananaRow : Item := ⟨"B", "banana", 50, false⟩

/-- Fresh store: the `C1` account, both items, empty logs. -/
def dbA : DB := ⟨[aliceRow], [appleRow, bananaRow], [], [], 1⟩

/-- Scenario B store: `C1` holds only 50. -/
def dbPoor : DB := ⟨[⟨"C1", "alice", 50, true⟩], [appleRow, bananaRow], [], [], 1⟩

/-- Store whose only account has balance 0, catalog containing only the
apple. -/
def dbZero : DB := ⟨[⟨"C1", "alice", 0, true⟩], [appleRow], [], [], 1⟩

/-- Store holding a stale idempotency entry: key `K`, stored at time 0,
looked at again at `now = 200000` (more than 24 hours later). -/
def dbStale : DB := ⟨[aliceRow], [appleRow], [], [⟨"K", ⟨100, 0⟩, 0⟩], 1⟩

/-! ### The claims -/

/-- C6: the purchase total reported by any successful request is the exact
ℤ sum of `unit_price * quantity` over the surviving lines - Python integers
are arbitrary precision, so no wrapping is possible anywhere in the pricing
loop and the overflow branch of the claim is vacuous. -/
theorem C6_total_exact (db : DB) (x : Bool) (req : PurchaseRequest)
    (k : Option String) (now : Nat) (t : Int) (s : Summary)
    (h : (purchase db x req k now).1 = .success t s) :
    t = ((req.items.filter (survives db.items)).map
          (fun li => linePrice db.items li * li.quantity)).sum :=
  computeTotal_ok_sum db.items req.mode req.items t
    (purchaseCore_success_total db x req k now t s
      (purchase_success_core db x req k now t s h))

theorem C6_total_exact_witness :
    (100 : Int) = ((([⟨"A", 1⟩, ⟨"B", 1⟩] : List LineItem).filter
        (survives dbA.items)).map
          (fun li => linePrice dbA.items li * li.quantity)).sum :=
  C6_total_exact dbA true ⟨"C1", [⟨"A", 1⟩, ⟨"B", 1⟩], "partial"⟩ none 10 100
    ⟨100, 10⟩ rfl

/-- C7: the archive sweep removes exactly the transaction records strictly
older than the 7-day cutoff, exports each of them, deletes exactly the
idempotency entries 24 hours old or older, returns both counts, and leaves
users (balances) and items untouched. -/
theorem C7_archive_frame (db : DB) (now : Nat) :
    (archive_old_transactions db now).2.users = db.users
    ∧ (archive_old_transactions db now).2.items = db.items
    ∧ (∀ r : TransRecord, r ∈ (archive_old_transactions db now).2.transaction_history
        ↔ (r ∈ db.transaction_history ∧ ¬ r.time < archiveCutoff now))
    ∧ (archive_old_transactions db now).1.exported
        = (db.transaction_history.filter
            (fun r => decide (r.time < archiveCutoff now))).map (exportRow db)
    ∧ (archive_old_transactions db now).1.transactions_archived
        = (db.transaction_history.filter
            (fun r => decide (r.time < archiveCutoff now))).length
    ∧ (∀ e : IdemEntry, e ∈ (archive_old_transactions db now).2.idempotency
        ↔ (e ∈ db.idempotency ∧ ¬ e.created_at ≤ idemExpiryCutoff now))
    ∧ (archive_old_transactions db now).1.expired_keys_deleted
        = (db.idempotency.filter
            (fun e => decide (e.created_at ≤ idemExpiryCutoff now))).length := by
  refine ⟨rfl, rfl, fun r => ?_, rfl, rfl, fun e => ?_, rfl⟩
  · simp [archive_old_transactions, List.mem_filter]
  · simp [archive_old_transactions, List.mem_filter]

/-- C8 (spec-modelled `user_status` RPC): requesting the active state the
account already has fails with the distinguishable AlreadyInState client
error (HTTP 400 in `set_user_status`) and mutates nothing. -/
theorem C8_already_in_state (db : DB) (uid : String) (b : Bool) (u : User)
    (hu : findUser db.users uid = some u) (hb : u.active = b) :
    user_status db uid b = (.alreadyInState b, db)
    ∧ setStatusHttp (user_status db uid b).1 = 400 := by
  have h1 : user_status db uid b = (.alreadyInState b, db) := by
    unfold user_status
    rw [hu]
    simp [hb]
  refine ⟨h1, ?_⟩
  rw [h1]
  rfl

theorem C8_already_in_state_witness :
    user_status dbA "C1" true = (.alreadyInState true, dbA)
    ∧ setStatusHttp (user_status dbA "C1" true).1 = 400 :=
  C8_already_in_state dbA "C1" true aliceRow (by decide) (by decide)

/-- C9: when the external check passes but the card has no row in the local
`users` table, the conditional debit matches zero rows and the request fails
with InsufficientFunds (HTTP 402) - the debit step cannot tell a missing
account from an underfunded one. -/
theorem C9_missing_account_402 (db : DB) (req : PurchaseRequest) (now : Nat)
    (total : Int)
    (hne : req.items ≠ [])
    (hprice : computeTotal db.items req.mode req.items = Except.ok total)
    (habs : ∀ u ∈ db.users, u.card_id ≠ req.card_id) :
    purchase db true req none now = (.insufficientFunds, db)
    ∧ purchaseHttpStatus (purchase db true req none now).1 = 402 := by
  have hm : debitMatches db.users req.card_id total = 0 :=
    debitMatches_zero db.users req.card_id total
      (fun u hu hc => absurd hc (habs u hu))
  have h1 := purchaseCore_insufficient db req none now total hne hprice hm
  rw [purchase_none, h1]
  exact ⟨rfl, rfl⟩

theorem C9_missing_account_402_witness :
    purchase dbA true ⟨"C9", [⟨"A", 1⟩], "all_or_nothing"⟩ none 10
      = (.insufficientFunds, dbA)
    ∧ purchaseHttpStatus
        (purchase dbA true ⟨"C9", [⟨"A", 1⟩], "all_or_nothing"⟩ none 10).1 = 402 :=
  C9_missing_account_402 dbA ⟨"C9", [⟨"A", 1⟩], "all_or_nothing"⟩ 10 100
    (by decide) rfl (by decide)

/-- C1 counterexample: under Partial mode with one active line (apple) and
one inactive line (banana), the purchase succeeds for 100 with exactly ONE
surviving line, yet TWO transaction records are appended - the insert loop
runs over every requested line, not over the surviving lines. -/
theorem C1_counterexample :
    (purchase dbA true ⟨"C1", [⟨"A", 1⟩, ⟨"B", 1⟩], "partial"⟩ none 10).1
      = .success 100 ⟨100, 10⟩
    ∧ (([⟨"A", 1⟩, ⟨"B", 1⟩] : List LineItem).filter (survives dbA.items)).length = 1
    ∧ (purchase dbA true ⟨"C1", [⟨"A", 1⟩, ⟨"B", 1⟩], "partial"⟩
        none 10).2.transaction_history.length = 2 := by
  refine ⟨rfl, by decide, rfl⟩

/-- C1 (amended): when pricing completes with total T and no requested line
with positive quantity names a missing item, the debit applies iff some row
matches `card_id = ? AND balance >= ?`: with a matching first row of balance
B ≥ T the purchase commits with new balance B - T and one record per unit of
every REQUESTED line; when every matching row has balance < T the request
fails with InsufficientFunds and nothing at all is written. -/
theorem C1_conditional_debit (db : DB) (req : PurchaseRequest) (now : Nat)
    (u : User) (total : Int)
    (hne : req.items ≠ [])
    (hprice : computeTotal db.items req.mode req.items = Except.ok total)
    (hfk : fkViolation db.items req.items = false)
    (hu : findUser db.users req.card_id = some u) :
    (total ≤ u.balance →
      (purchase db true req none now).1 = .success total ⟨total, now⟩
      ∧ findUser (purchase db true req none now).2.users req.card_id
          = some { u with balance := u.balance - total }
      ∧ (purchase db true req none now).2.transaction_history
          = db.transaction_history
            ++ appendRecords db.next_trans_id req.card_id now req.items
      ∧ (appendRecords db.next_trans_id req.card_id now req.items).length
          = (req.items.map (fun li => li.quantity.toNat)).sum)
    ∧ ((∀ v ∈ db.users, v.card_id = req.card_id → v.balance < total) →
        purchase db true req none now = (.insufficientFunds, db)) := by
  constructor
  · intro hb
    have hm := debitMatches_pos db.users req.card_id total u hu hb
    have hspec := purchaseCore_success_spec db req none now total hne hprice hm hfk
    rw [purchase_none, hspec]
    exact ⟨rfl, findUser_debit_map db.users req.card_id total u hu hb, rfl,
      appendRecords_length req.card_id now req.items db.next_trans_id⟩
  · intro hall
    have hm := debitMatches_zero db.users req.card_id total hall
    rw [purchase_none]
    exact purchaseCore_insufficient db req none now total hne hprice hm

theorem C1_conditional_debit_witness :
    (purchase dbA true ⟨"C1", [⟨"A", 1⟩], "all_or_nothing"⟩ none 10).1
      = .success 100 ⟨100, 10⟩
    ∧ findUser (purchase dbA true ⟨"C1", [⟨"A", 1⟩], "all_or_nothing"⟩
        none 10).2.users "C1"
      = some ⟨"C1", "alice", 400, true⟩
    ∧ purchase dbPoor true ⟨"C1", [⟨"A", 1⟩], "all_or_nothing"⟩ none 10
      = (.insufficientFunds, dbPoor) := by
  have h := (C1_conditional_debit dbA ⟨"C1", [⟨"A", 1⟩], "all_or_nothing"⟩ 10
    aliceRow 100 (by decide) rfl (by decide) (by decide)).1 (by decide)
  have h2 := (C1_conditional_debit dbPoor ⟨"C1", [⟨"A", 1⟩], "all_or_nothing"⟩ 10
    ⟨"C1", "alice", 50, true⟩ 100 (by decide) rfl (by decide) (by decide)).2
    (by decide)
  exact ⟨h.1, h.2.1, h2⟩

/-- C2 counterexample: the credit endpoint accepts a negative amount and
applies it unconditionally - crediting -600 to the `C1` account holding 500
commits and leaves the balance at -100, violating the non-negativity
invariant. -/
theorem C2_counterexample :
    (add_balance_to_user dbA true "C1" (-600)).1 = CreditResult.ok
    ∧ findUser (add_balance_to_user dbA true "C1" (-600)).2.users "C1"
        = some ⟨"C1", "alice", -100, true⟩
    ∧ ((-100 : Int) < 0) := by
  refine ⟨rfl, rfl, by decide⟩

/-- The users table after the credit endpoint is either untouched or the
image of the unconditional `balance = balance + ?` UPDATE. -/
theorem add_balance_users_shape (db : DB) (x : Bool) (c : String) (amount : Int) :
    (add_balance_to_user db x c amount).2.users = db.users
    ∨ (add_balance_to_user db x c amount).2.users
        = db.users.map (fun u =>
            if u.card_id = c then { u with balance := u.balance + amount } else u) := by
  unfold add_balance_to_user
  by_cases hx : x = false
  · simp [hx]
  · rw [if_neg hx]
    by_cases h0 : amount = 0
    · simp [h0]
    · rw [if_neg h0]
      by_cases hrc : (db.users.filter (fun u => decide (u.card_id = c))).length = 0
      · simp [hrc]
      · simp [hrc]

/-- C2 (amended): starting from an all-non-negative users table, every
purchase, every credit of a NON-NEGATIVE amount, every archive sweep and
every status toggle leaves all balances non-negative; the counterexample
shows the restriction on the credit amount is necessary. -/
theorem C2_nonneg_preserved (db : DB) (x : Bool) (req : PurchaseRequest)
    (k : Option String) (now now2 : Nat) (c uid : String) (amount : Int) (b : Bool)
    (hnn : ∀ u ∈ db.users, 0 ≤ u.balance) :
    (∀ u ∈ (purchase db x req k now).2.users, 0 ≤ u.balance)
    ∧ (0 ≤ amount →
        ∀ u ∈ (add_balance_to_user db x c amount).2.users, 0 ≤ u.balance)
    ∧ (∀ u ∈ (archive_old_transactions db now2).2.users, 0 ≤ u.balance)
    ∧ (∀ u ∈ (user_status db uid b).2.users, 0 ≤ u.balance) := by
  refine ⟨?_, ?_, ?_, ?_⟩
  · have hshape : (purchase db x req k now).2.users = db.users
        ∨ ∃ total, (purchase db x req k now).2.users
            = db.users.map (debitRow req.card_id total) := by
      cases k with
      | none => exact purchaseCore_users_shape db x req none now
      | some kk =>
        cases hk : db.idempotency.find? (fun e => e.key = kk) with
        | none =>
          rw [purchase_key_miss db x req kk now hk]
          exact purchaseCore_users_shape db x req (some kk) now
        | some e =>
          rw [purchase_key_hit db x req kk now e hk]
          exact Or.inl rfl
    rcases hshape with h | ⟨total, h⟩
    · rw [h]; exact hnn
    · rw [h]
      intro u hu
      rcases List.mem_map.mp hu with ⟨v, hv, rfl⟩
      exact debitRow_nonneg _ _ v (hnn v hv)
  · intro ha
    rcases add_balance_users_shape db x c amount with h | h
    · rw [h]; exact hnn
    · rw [h]
      intro u hu
      rcases List.mem_map.mp hu with ⟨v, hv, rfl⟩
      by_cases hvc : v.card_id = c
      · simp only [hvc, if_true]
        exact add_nonneg (hnn v hv) ha
      · simp only [hvc, if_false]
        exact hnn v hv
  · exact hnn
  · rcases user_status_users_shape db uid b with h | h
    · rw [h]; exact hnn
    · rw [h]
      intro u hu
      rcases List.mem_map.mp hu with ⟨v, hv, rfl⟩
      by_cases hvc : v.card_id = uid
      · simp only [hvc, if_true]
        exact hnn v hv
      · simp only [hvc, if_false]
        exact hnn v hv

theorem C2_nonneg_preserved_witness :
    (0 : Int) ≤ (⟨"C1", "alice", 400, true⟩ : User).balance :=
  (C2_nonneg_preserved dbA true ⟨"C1", [⟨"A", 1⟩], "all_or_nothing"⟩ none 10 10
    "C1" "C1" 5 true (by decide)).1 ⟨"C1", "alice", 400, true⟩ (by decide)

/-- C3 counterexample: under Partial mode, a request whose only line fails
because the item id is MISSING from the catalog does not succeed with a zero
charge - the insert loop still writes a record for the dropped line, the
`item_id` foreign key is violated, and the request fails with HTTP 500. -/
theorem C3_counterexample :
    survives dbZero.items ⟨"ghost", 1⟩ = false
    ∧ purchase dbZero true ⟨"C1", [⟨"ghost", 1⟩], "partial"⟩ none 10
        = (.internalError, dbZero)
    ∧ PurchaseResult.internalError ≠ .success 0 ⟨0, 10⟩ := by
  refine ⟨by decide, rfl, by decide⟩

/-- C3 (amended): under AllOrNothing any line failure aborts the request
with InvalidLine and no mutation; under Partial the total is the survivors'
sum; and when ALL lines fail the request still succeeds with a zero charge
provided every failing item id at least exists in the catalog (merely
inactive) - a missing id instead trips the foreign key (see the
counterexample). -/
theorem C3_line_failures (db : DB) (req : PurchaseRequest) (now : Nat) (u : User) :
    (req.mode = "all_or_nothing" → req.items.all (survives db.items) = false →
      ∃ iid, purchase db true req none now = (.invalidLine iid, db))
    ∧ (req.mode ≠ "all_or_nothing" →
      computeTotal db.items req.mode req.items
        = Except.ok (((req.items.filter (survives db.items)).map
            (fun li => linePrice db.items li * li.quantity)).sum))
    ∧ (req.mode ≠ "all_or_nothing" →
      (∀ li ∈ req.items, survives db.items li = false) →
      req.items ≠ [] →
      fkViolation db.items req.items = false →
      findUser db.users req.card_id = some u → 0 ≤ u.balance →
      (purchase db true req none now).1 = .success 0 ⟨0, now⟩) := by
  refine ⟨fun hm hall => ?_,
    fun hm => computeTotal_not_aon db.items req.mode hm req.items,
    fun hm hfail hne hfk hu hb => ?_⟩
  · have hne : req.items ≠ [] := by
      intro h0
      rw [h0] at hall
      simp at hall
    obtain ⟨iid, herr⟩ := computeTotal_aon_error db.items req.items hall
    rw [← hm] at herr
    exact ⟨iid, by
      rw [purchase_none]
      exact purchaseCore_invalidLine db req none now iid hne herr⟩
  · have h0 := computeTotal_not_aon db.items req.mode hm req.items
    have hfil : req.items.filter (survives db.items) = [] :=
      List.filter_eq_nil_iff.mpr (fun li hli => by simp [hfail li hli])
    rw [hfil] at h0
    simp only [List.map_nil, List.sum_nil] at h0
    have hm0 := debitMatches_pos db.users req.card_id 0 u hu hb
    have hspec := purchaseCore_success_spec db req none now 0 hne h0 hm0 hfk
    rw [purchase_none, hspec]

theorem C3_line_failures_witness :
    (purchase dbA true ⟨"C1", [⟨"B", 2⟩], "partial"⟩ none 10).1
      = .success 0 ⟨0, 10⟩ :=
  (C3_line_failures dbA ⟨"C1", [⟨"B", 2⟩], "partial"⟩ 10 aliceRow).2.2
    (by decide) (by decide) (by decide) (by decide) (by decide) (by decide)

/-- C4 counterexample: an idempotency entry stored at time 0 is 24 hours or
older at `now = 200000`, yet the replay branch still returns the stored
result and skips the purchase - the lookup `SELECT result_json FROM
idempotency WHERE key = ?` has no age condition, so an expired key is NOT
treated as a new request. -/
theorem C4_counterexample :
    idemExpiryCutoff 200000 ≥ 0
    ∧ purchase dbStale true ⟨"C1", [⟨"A", 1⟩], "all_or_nothing"⟩
        (some "K") 200000
      = (.replay ⟨100, 0⟩, dbStale) := by
  refine ⟨by decide, rfl⟩

/-- C4 (amended): a keyed purchase replays the stored result - regardless of
the entry's age - whenever an entry for the key exists, mutating nothing; a
keyed purchase with no stored entry runs, and on success stores its summary
under the key; an unkeyed purchase never replays and caches nothing. -/
theorem C4_replay_semantics (db : DB) (x : Bool) (req : PurchaseRequest)
    (k : String) (now : Nat) (e : IdemEntry) :
    (db.idempotency.find? (fun e2 => e2.key = k) = some e →
      purchase db x req (some k) now = (.replay e.result, db))
    ∧ (db.idempotency.find? (fun e2 => e2.key = k) = none →
       ∀ t s, (purchase db x req (some k) now).1 = .success t s →
         (⟨k, s, now⟩ : IdemEntry) ∈ (purchase db x req (some k) now).2.idempotency)
    ∧ ((purchase db x req none now).2.idempotency = db.idempotency
       ∧ ∀ s2, (purchase db x req none now).1 ≠ .replay s2) := by
  refine ⟨fun hk => purchase_key_hit db x req k now e hk,
    fun hk t s h => ?_, ?_, fun s2 => ?_⟩
  · rw [purchase_key_miss db x req k now hk] at h ⊢
    obtain ⟨hs, hidem⟩ := purchaseCore_success_inv db x req (some k) now t s h
    rw [hidem, hs]
    simp
  · rw [purchase_none]
    rcases purchaseCore_shape db x req none now with ⟨t, s, hsucc⟩ | hdb
    · obtain ⟨_, hidem⟩ := purchaseCore_success_inv db x req none now t s hsucc
      rw [hidem]
      simp
    · rw [hdb]
  · rw [purchase_none]
    exact purchaseCore_ne_replay db x req none now s2

theorem C4_replay_semantics_witness :
    purchase dbStale true ⟨"C1", [⟨"A", 1⟩], "partial"⟩ (some "K") 200000
      = (.replay ⟨100, 0⟩, dbStale) :=
  (C4_replay_semantics dbStale true ⟨"C1", [⟨"A", 1⟩], "partial"⟩
    "K" 200000 ⟨"K", ⟨100, 0⟩, 0⟩).1 (by decide)

/-- The catalog after a price change applied on top of the post-purchase
store: apple now costs 999. -/
def dbBumped : DB :=
  { (purchase dbA true ⟨"C1", [⟨"A", 1⟩], "all_or_nothing"⟩ none 10).2 with
    items := [⟨"A", "apple", 999, true⟩, bananaRow] }

/-- C5 counterexample: the `transaction_history` schema stores no amount;
after buying the apple at 100 (balance 500 → 400), bumping the catalog price
to 999 makes the archive export derive 999 for the old record, so the sum of
record amounts (999) no longer equals initial - current + credits (100). -/
theorem C5_counterexample :
    (purchase dbA true ⟨"C1", [⟨"A", 1⟩], "all_or_nothing"⟩
        none 10).2.transaction_history = [⟨1, "C1", "A", 10⟩]
    ∧ findUser (purchase dbA true ⟨"C1", [⟨"A", 1⟩], "all_or_nothing"⟩
        none 10).2.users "C1" = some ⟨"C1", "alice", 400, true⟩
    ∧ (exportRow dbBumped ⟨1, "C1", "A", 10⟩).price = some 999
    ∧ (999 : Int) ≠ 500 - 400 := by
  refine ⟨rfl, rfl, rfl, by decide⟩

/-- C5 (amended): a record's exported amount is re-derived from the LIVE
catalog at export time; while the catalog is unchanged (here: immediately
after the purchase, whose commit does not touch `items`), the summed derived
amounts of the new records equal the total debited, i.e. the balance drop. -/
theorem C5_amount_rederived (db : DB) (req : PurchaseRequest) (now : Nat)
    (u : User) (total : Int)
    (hne : req.items ≠ [])
    (hq : ∀ li ∈ req.items, 0 ≤ li.quantity)
    (hs : ∀ li ∈ req.items, survives db.items li = true)
    (hprice : computeTotal db.items req.mode req.items = Except.ok total)
    (hu : findUser db.users req.card_id = some u) (hb : total ≤ u.balance) :
    (purchase db true req none now).2.items = db.items
    ∧ ((appendRecords db.next_trans_id req.card_id now req.items).map
        (fun r => ((exportRow (purchase db true req none now).2 r).price).getD 0)).sum
      = total
    ∧ findUser (purchase db true req none now).2.users req.card_id
      = some { u with balance := u.balance - total } := by
  have hfk := fkViolation_of_survives db.items req.items hs
  have hm := debitMatches_pos db.users req.card_id total u hu hb
  have hspec := purchaseCore_success_spec db req none now total hne hprice hm hfk
  rw [purchase_none, hspec]
  refine ⟨rfl, ?_, findUser_debit_map db.users req.card_id total u hu hb⟩
  rw [exported_price_sum _ req.card_id now req.items db.next_trans_id hq]
  have hall := computeTotal_all_survive db.items req.mode req.items hs
  rw [hprice] at hall
  injection hall with hall
  exact hall.symm

theorem C5_amount_rederived_witness :
    ((appendRecords 1 "C1" 10 [⟨"A", 1⟩]).map
        (fun r => ((exportRow (purchase dbA true
          ⟨"C1", [⟨"A", 1⟩], "all_or_nothing"⟩ none 10).2 r).price).getD 0)).sum
      = 100 :=
  ((C5_amount_rederived dbA ⟨"C1", [⟨"A", 1⟩], "all_or_nothing"⟩ 10 aliceRow 100
    (by decide) (by decide) (by decide) rfl (by decide) (by decide)).2).1

/-- C10: the idempotency insert shares the purchase's single transaction:
(i) any non-successful request leaves the whole store - in particular the
idempotency table - exactly as it was; (ii) a successful request's only
idempotency change is the entry for its own key holding its summary;
(iii) every entry present afterwards was either there before or was written
by this request's commit. -/
theorem C10_cache_iff_commit (db : DB) (x : Bool) (req : PurchaseRequest)
    (k : Option String) (now : Nat) :
    ((∀ t s, (purchase db x req k now).1 ≠ .success t s) →
        (purchase db x req k now).2 = db)
    ∧ (∀ t s, (purchase db x req k now).1 = .success t s →
        (purchase db x req k now).2.idempotency
          = db.idempotency ++ Option.elim k [] (fun kk => [⟨kk, s, now⟩]))
    ∧ (∀ e : IdemEntry, e ∈ (purchase db x req k now).2.idempotency →
        e ∈ db.idempotency
        ∨ (k = some e.key
           ∧ (purchase db x req k now).1 = .success e.result.total e.result)) := by
  have hcore : ∀ kk : Option String,
      purchase db x req k now = purchaseCore db x req k now →
      ((∀ t s, (purchase db x req k now).1 ≠ .success t s) →
        (purchase db x req k now).2 = db) := by
    intro _ heq h
    rw [heq] at h ⊢
    rcases purchaseCore_shape db x req k now with ⟨t, s, hsucc⟩ | hdb
    · exact absurd hsucc (h t s)
    · exact hdb
  refine ⟨?_, fun t s h => ?_, fun e he => ?_⟩
  · cases k with
    | none => exact hcore none (purchase_none db x req now)
    | some kk =>
      cases hk : db.idempotency.find? (fun e => e.key = kk) with
      | none => exact hcore (some kk) (purchase_key_miss db x req kk now hk)
      | some e =>
        intro _
        rw [purchase_key_hit db x req kk now e hk]
  · have hc : purchase db x req k now = purchaseCore db x req k now := by
      cases k with
      | none => exact purchase_none db x req now
      | some kk =>
        cases hk : db.idempotency.find? (fun e => e.key = kk) with
        | none => exact purchase_key_miss db x req kk now hk
        | some e =>
          rw [purchase_key_hit db x req kk now e hk] at h
          cases h
    rw [hc] at h ⊢
    obtain ⟨hs, hidem⟩ := purchaseCore_success_inv db x req k now t s h
    rw [hidem, hs]
  · by_cases hrep : purchase db x req k now = purchaseCore db x req k now
    · rw [hrep] at he ⊢
      rcases purchaseCore_shape db x req k now with ⟨t, s, hsucc⟩ | hdb
      · obtain ⟨hs, hidem⟩ := purchaseCore_success_inv db x req k now t s hsucc
        rw [hidem] at he
        rcases List.mem_append.mp he with hin | hin
        · exact Or.inl hin
        · cases k with
          | none => simp at hin
          | some kk =>
            simp only [Option.elim, List.mem_singleton] at hin
            subst hin
            exact Or.inr ⟨rfl, by rw [hsucc, hs]⟩
      · rw [hdb] at he
        exact Or.inl he
    · cases k with
      | none => exact absurd (purchase_none db x req now) hrep
      | some kk =>
        cases hk : db.idempotency.find? (fun e2 => e2.key = kk) with
        | none => exact absurd (purchase_key_miss db x req kk now hk) hrep
        | some e2 =>
          rw [purchase_key_hit db x req kk now e2 hk] at he
          exact Or.inl he

theorem C10_cache_iff_commit_witness :
    (purchase dbPoor true ⟨"C1", [⟨"A", 1⟩], "all_or_nothing"⟩
        (some "K") 10).2 = dbPoor :=
  (C10_cache_iff_commit dbPoor true ⟨"C1", [⟨"A", 1⟩], "all_or_nothing"⟩
      (some "K") 10).1
    (fun t s h => PurchaseResult.noConfusion
      (show PurchaseResult.insufficientFunds = .success t s from h))

end BBLedger
